import Mathlib

/-!
Verification development for the river-geometry engine
(`backend/river_geometry.py`): shallow embedding of the data model and the
geometric operations, with floats modelled as exact rationals (`ℚ`).
-/

set_option maxRecDepth 100000

/-- A planar point `(longitude, latitude)` in degrees. -/
abbrev Point := ℚ × ℚ

/-- Mirrors the Python dataclass `RiverSegment`. -/
structure RiverSegment where
  name : String
  coordinates : List Point
  avg_width_m : ℚ := 500
  flood_prone : Bool := true
deriving DecidableEq

/-- A value stored in a Python-style properties dict (string, number or bool). -/
inductive PropValue where
  | s (v : String)
  | q (v : ℚ)
  | b (v : Bool)
deriving DecidableEq

/-- Mirrors the Python dataclass `FloodGeometry`; the heterogeneous
`properties` dict is modelled as an association list. -/
structure FloodGeometry where
  type : String
  coordinates : List (List Point)
  properties : List (String × PropValue)
deriving DecidableEq

/-- Mirrors the Python dataclass `IntersectionResult`. -/
structure IntersectionResult where
  river_name : String
  intersection_length_km : ℚ
  is_intersecting : Bool
deriving DecidableEq

/-- A GeoJSON feature as built by `get_flood_geometry`. -/
structure Feature where
  ftype : String := "Feature"
  gtype : String
  gcoordinates : List (List Point)
  properties : List (String × PropValue)
deriving DecidableEq

/-- A GeoJSON feature collection as built by `get_flood_geometry`. -/
structure FeatureCollection where
  type : String
  features : List Feature
deriving DecidableEq

/-- The closed scenario enumeration `Literal["0m", "1m", "2m"]`. -/
inductive Scenario where
  | m0
  | m1
  | m2
deriving DecidableEq

/-- The string value of a scenario, as it appears in feature properties. -/
def Scenario.toName : Scenario → String
  | .m0 => "0m"
  | .m1 => "1m"
  | .m2 => "2m"

/-- The static `RIVER_NETWORKS` dict: per-region registered rivers. -/
def RIVER_NETWORKS : List (String × List RiverSegment) :=
  [("Bihar",
    [{ name := "Ganges",
       coordinates := [(84.2, 25.6), (84.5, 25.5), (85.0, 25.4),
                       (85.3, 25.3), (85.6, 25.2), (86.0, 25.1),
                       (86.3, 25.0), (86.6, 24.9), (87.0, 24.8)],
       avg_width_m := 800 },
     { name := "Kosi",
       coordinates := [(86.8, 26.5), (86.7, 26.2), (86.6, 25.9),
                       (86.5, 25.6), (86.4, 25.3), (86.3, 25.0)],
       avg_width_m := 400 },
     { name := "Gandak",
       coordinates := [(84.0, 26.8), (84.2, 26.5), (84.5, 26.2),
                       (84.8, 25.9), (85.0, 25.6), (85.2, 25.3)],
       avg_width_m := 350 },
     { name := "Bagmati",
       coordinates := [(85.5, 26.5), (85.6, 26.2), (85.7, 25.9),
                       (85.8, 25.6), (85.9, 25.3)],
       avg_width_m := 250 }]),
   ("Uttarakhand",
    [{ name := "Ganges",
       coordinates := [(78.2, 30.1), (78.5, 30.0), (78.8, 29.9),
                       (79.1, 29.8), (79.4, 29.7), (79.7, 29.6)],
       avg_width_m := 600 },
     { name := "Yamuna",
       coordinates := [(78.0, 30.9), (78.2, 30.7), (78.4, 30.5),
                       (78.6, 30.3), (78.8, 30.1), (79.0, 29.9)],
       avg_width_m := 500 },
     { name := "Alaknanda",
       coordinates := [(79.0, 30.7), (79.1, 30.5), (79.2, 30.3),
                       (79.3, 30.1), (79.4, 29.9)],
       avg_width_m := 300 },
     { name := "Bhagirathi",
       coordinates := [(78.6, 31.0), (78.7, 30.8), (78.8, 30.6),
                       (78.9, 30.4), (79.0, 30.2)],
       avg_width_m := 280 }]),
   ("Jharkhand",
    [{ name := "Damodar",
       coordinates := [(84.5, 24.0), (84.8, 23.8), (85.1, 23.6),
                       (85.4, 23.4), (85.7, 23.2), (86.0, 23.0),
                       (86.3, 22.8)],
       avg_width_m := 450 },
     { name := "Subarnarekha",
       coordinates := [(85.0, 23.5), (85.3, 23.3), (85.6, 23.1),
                       (85.9, 22.9), (86.2, 22.7)],
       avg_width_m := 350 },
     { name := "Koel",
       coordinates := [(84.0, 23.8), (84.3, 23.6), (84.6, 23.4),
                       (84.9, 23.2), (85.2, 23.0)],
       avg_width_m := 300 }]),
   ("Uttar Pradesh",
    [{ name := "Ganges",
       coordinates := [(77.5, 29.5), (78.0, 29.3), (78.5, 29.0),
                       (79.0, 28.7), (79.5, 28.4), (80.0, 28.0),
                       (80.5, 27.7), (81.0, 27.4), (81.5, 27.0),
                       (82.0, 26.7), (82.5, 26.4), (83.0, 26.0),
                       (83.5, 25.7), (84.0, 25.4)],
       avg_width_m := 900 },
     { name := "Yamuna",
       coordinates := [(77.2, 30.4), (77.5, 30.0), (77.8, 29.6),
                       (78.1, 29.2), (78.4, 28.8), (78.7, 28.4),
                       (79.0, 28.0), (79.3, 27.6), (79.6, 27.2)],
       avg_width_m := 700 },
     { name := "Gomti",
       coordinates := [(80.0, 28.5), (80.3, 28.2), (80.6, 27.9),
                       (80.9, 27.6), (81.2, 27.3), (81.5, 27.0)],
       avg_width_m := 400 },
     { name := "Ghaghra",
       coordinates := [(81.5, 27.5), (81.8, 27.2), (82.1, 26.9),
                       (82.4, 26.6), (82.7, 26.3), (83.0, 26.0)],
       avg_width_m := 500 }])]

/-- Mirrors `get_river_network`: `RIVER_NETWORKS.get(region, [])` — an
unknown region yields the empty list. -/
def get_river_network (region : String) : List RiverSegment :=
  (RIVER_NETWORKS.lookup region).getD []

/-- Python `min` over a list (total stand-in: 0 on the empty list, which the
code never reaches). -/
def listMin : List ℚ → ℚ
  | [] => 0
  | x :: xs => xs.foldl min x

/-- Python `max` over a list (total stand-in: 0 on the empty list, which the
code never reaches). -/
def listMax : List ℚ → ℚ
  | [] => 0
  | x :: xs => xs.foldl max x

/-- The `xinters` value of the ray-casting loop in `is_point_in_polygon`:
the x-coordinate where the horizontal line at height `y` meets the line
through `p1` and `p2`. -/
def xinters (y : ℚ) (p1 p2 : Point) : ℚ :=
  (y - p1.2) * (p2.1 - p1.1) / (p2.2 - p1.2) + p1.1

/-- The toggle condition of one iteration of the `is_point_in_polygon` loop
for the edge `p1`–`p2`.  When `p1.2 = p2.2` the first two conjuncts are
false, exactly as the Python guards prevent the (horizontal-edge) branch
from toggling, so the stale-`xinters` path is never taken. -/
def pipToggle (x y : ℚ) (p1 p2 : Point) : Prop :=
  min p1.2 p2.2 < y ∧ y ≤ max p1.2 p2.2 ∧ x ≤ max p1.1 p2.1 ∧
    (p1.1 = p2.1 ∨ x ≤ xinters y p1 p2)

instance instDecidablePipToggle (x y : ℚ) (p1 p2 : Point) :
    Decidable (pipToggle x y p1 p2) := by
  unfold pipToggle
  infer_instance

/-- One iteration of the `is_point_in_polygon` loop: the state is the pair
`(inside, p1)` and the argument is the current `p2`. -/
def pipStep (x y : ℚ) (s : Bool × Point) (p2 : Point) : Bool × Point :=
  if pipToggle x y s.2 p2 then (!s.1, p2) else (s.1, p2)

/-- Mirrors `is_point_in_polygon`.  The Python loop visits
`p2 = polygon[i % n]` for `i = 0, …, n`, i.e. the list `polygon ++ [polygon[0]]`,
with `p1` initialised to `polygon[0]`.  On an empty polygon the Python code
raises `IndexError` at `polygon[0]`; this is modelled as `none`. -/
def is_point_in_polygon (x y : ℚ) (polygon : List Point) : Option Bool :=
  match polygon with
  | [] => none
  | p0 :: _ => some ((polygon ++ [p0]).foldl (pipStep x y) (false, p0)).1

/-- The `ccw` helper of `segments_intersect`. -/
def ccw (A B C : Point) : Bool :=
  decide ((C.2 - A.2) * (B.1 - A.1) > (B.2 - A.2) * (C.1 - A.1))

/-- Mirrors `segments_intersect`: proper-crossing test for `p1p2` vs `p3p4`. -/
def segments_intersect (p1 p2 p3 p4 : Point) : Bool :=
  (ccw p1 p3 p4 != ccw p2 p3 p4) && (ccw p1 p2 p3 != ccw p1 p2 p4)

/-- The bounding-box fast-path test of `check_river_intersection`: true when
the axis-aligned bounding box of `ring` cannot overlap that of `coords`
(`max_x < r_min_x or min_x > r_max_x or max_y < r_min_y or min_y > r_max_y`). -/
def bboxDisjoint (ring coords : List Point) : Bool :=
  decide (listMax (ring.map Prod.fst) < listMin (coords.map Prod.fst)) ||
  decide (listMin (ring.map Prod.fst) > listMax (coords.map Prod.fst)) ||
  decide (listMax (ring.map Prod.snd) < listMin (coords.map Prod.snd)) ||
  decide (listMin (ring.map Prod.snd) > listMax (coords.map Prod.snd))

/-- The inner double loop of `check_river_intersection`: some river edge
`(coords[i], coords[i+1])` properly crosses some ring edge
`(ring[j], ring[j+1])` (no wrap-around edge in the source). -/
def segPairsAny (coords ring : List Point) : Bool :=
  (coords.zip coords.tail).any fun rp =>
    (ring.zip ring.tail).any fun pp => segments_intersect rp.1 rp.2 pp.1 pp.2

/-- One ring of the AOI detects `river` in `check_river_intersection`:
the ring has at least 3 points, its bounding box overlaps the river's, and
either some river vertex lies inside the ring or some pair of edges
properly crosses. -/
def ringDetects (river : RiverSegment) (ring : List Point) : Bool :=
  decide (3 ≤ ring.length) && !(bboxDisjoint ring river.coordinates) &&
  (river.coordinates.any (fun p => decide (is_point_in_polygon p.1 p.2 ring = some true)) ||
   segPairsAny river.coordinates ring)

/-- The `intersected` flag computed by `check_river_intersection` for one
river: the early `break`s only stop scanning once a detection happened, so
the flag is an existential over the rings. -/
def riverDetected (river : RiverSegment) (rings : List (List Point)) : Bool :=
  rings.any (ringDetects river)

/-- Mirrors `check_river_intersection` (the spec's `findIntersections`):
empty result for a riverless region or an empty ring list; otherwise one
`IntersectionResult` per detected river with at least 2 centerline points,
in registration order, carrying the constant length `0.1 * 100.0` km. -/
def check_river_intersection (region : String) (polygon_rings : List (List Point)) :
    List IntersectionResult :=
  if get_river_network region = [] then []
  else if polygon_rings = [] then []
  else
    ((get_river_network region).filter fun river =>
        decide (2 ≤ river.coordinates.length) && riverDetected river polygon_rings).map
      fun river =>
        { river_name := river.name
          intersection_length_km := (1 / 10 : ℚ) * 100
          is_intersecting := true }

/-- Mirrors `calculate_buffer_distance` (the spec's `bufferDistanceKm`),
with `0.1` as `1/10` and `0.8` as `8/10`. -/
def calculate_buffer_distance (scenario : Scenario) (river_width_m : ℚ := 500)
    (terrain_slope : ℚ := 2) : ℚ :=
  let base_buffer_km : ℚ :=
    match scenario with
    | .m0 => 1 / 10
    | .m1 => 3
    | .m2 => 8
  let width_factor : ℚ := 1 + river_width_m / 1000
  if scenario = .m0 then
    river_width_m / 1000 * (8 / 10)
  else
    base_buffer_km * width_factor * (1 + 1 / max terrain_slope (1 / 10))

/-- Mirrors `generate_flood_buffer` (the spec's `generateBufferPolygon`).
The ring starts with the corner point `(lon0 - d, lat0 - d)` emitted by the
`i == 0` branch, then the forward wall `(lon - d, lat)`, then the backward
wall `(lon + d, lat)`, and is closed by repeating its first element. -/
def generate_flood_buffer (river : RiverSegment) (buffer_km : ℚ)
    (elevation_factor : ℚ := 1) : FloodGeometry :=
  if buffer_km ≤ 0 ∨ river.coordinates = [] then
    { type := "Polygon"
      coordinates := []
      properties := [("river_name", .s river.name), ("buffer_km", .q 0),
                     ("flood_prone", .b false)] }
  else
    let buffer_deg := buffer_km / 111 * elevation_factor
    let ring : List Point :=
      (match river.coordinates with
       | [] => []
       | (lon, lat) :: _ => [(lon - buffer_deg, lat - buffer_deg)]) ++
      river.coordinates.map (fun p => (p.1 - buffer_deg, p.2)) ++
      river.coordinates.reverse.map (fun p => (p.1 + buffer_deg, p.2))
    let closed : List Point :=
      match ring with
      | [] => []
      | x :: xs => (x :: xs) ++ [x]
    { type := "Polygon"
      coordinates := if closed = [] then [] else [closed]
      properties := [("river_name", .s river.name), ("buffer_km", .q buffer_km),
                     ("flood_prone", .b river.flood_prone),
                     ("river_width_m", .q river.avg_width_m)] }

/-- Mirrors `get_flood_geometry` (the spec's `getFloodGeometry`) minus the
`lru_cache` decorator, which only memoizes this pure computation.  Features
whose geometry has empty coordinates are dropped; the per-feature
properties extend the geometry's with `scenario` and `region`. -/
def get_flood_geometry (region : String) (scenario : Scenario) : FeatureCollection :=
  if get_river_network region = [] then
    { type := "FeatureCollection", features := [] }
  else
    { type := "FeatureCollection"
      features := (get_river_network region).filterMap fun river =>
        let buffer_km := calculate_buffer_distance scenario river.avg_width_m 2
        let flood_geom := generate_flood_buffer river buffer_km
        if flood_geom.coordinates = [] then none
        else some
          { gtype := flood_geom.type
            gcoordinates := flood_geom.coordinates
            properties := flood_geom.properties ++
              [("scenario", .s scenario.toName), ("region", .s region)] } }

/-- Extracts the `river_name` property of a feature. -/
def featureRiverName (f : Feature) : Option PropValue :=
  f.properties.lookup "river_name"

/-- The ring construction of `generateBufferPolygon` as the specification
words it: forward wall at `-offset` in longitude, backward wall at
`+offset` in longitude, closed by repeating the first point — with no
extra corner point. -/
def specRingC7 (river : RiverSegment) (buffer_km : ℚ) : List Point :=
  let offset := buffer_km / 111
  let ring : List Point :=
    river.coordinates.map (fun p => (p.1 - offset, p.2)) ++
    river.coordinates.reverse.map (fun p => (p.1 + offset, p.2))
  match ring with
  | [] => []
  | x :: xs => (x :: xs) ++ [x]

/-- The ring `generate_flood_buffer` actually builds: an initial corner
point `(lon0 - offset, lat0 - offset)` (offset in latitude as well), then
the forward wall at `-offset` in longitude, then the backward wall at
`+offset` in longitude, closed by repeating the ring's first point. -/
def amendedRingC7 (river : RiverSegment) (buffer_km : ℚ) : List Point :=
  let offset := buffer_km / 111
  let ring : List Point :=
    (match river.coordinates with
     | [] => []
     | (lon, lat) :: _ => [(lon - offset, lat - offset)]) ++
    river.coordinates.map (fun p => (p.1 - offset, p.2)) ++
    river.coordinates.reverse.map (fun p => (p.1 + offset, p.2))
  match ring with
  | [] => []
  | x :: xs => (x :: xs) ++ [x]

/-- A one-point river used as a concrete input below. -/
def c7River : RiverSegment :=
  { name := "R", coordinates := [(0, 0)] }

/-- The `xinters` value is the same for an edge and its reversal (both
compute the x-coordinate of the same line at height `y`). -/
theorem xinters_comm (y : ℚ) (a b : Point) (h : a.2 ≠ b.2) :
    xinters y a b = xinters y b a := by
  unfold xinters
  have h1 : b.2 - a.2 ≠ 0 := sub_ne_zero.mpr (Ne.symm h)
  have h2 : a.2 - b.2 ≠ 0 := sub_ne_zero.mpr h
  field_simp
  ring

/-- The degenerate edge from a point to itself never toggles. -/
theorem pipToggle_self (x y : ℚ) (a : Point) : ¬ pipToggle x y a a := by
  rintro ⟨h1, h2, -, -⟩
  rw [min_self] at h1
  rw [max_self] at h2
  exact absurd (h1.trans_le h2) (lt_irrefl _)

/-- The toggle condition is symmetric in the edge's two endpoints. -/
theorem pipToggle_comm {x y : ℚ} {a b : Point} (h : pipToggle x y a b) :
    pipToggle x y b a := by
  obtain ⟨h1, h2, h3, h4⟩ := h
  have hne : a.2 ≠ b.2 := by
    intro he
    rw [he, min_self] at h1
    rw [he, max_self] at h2
    exact absurd (h1.trans_le h2) (lt_irrefl _)
  refine ⟨by rwa [min_comm], by rwa [max_comm], by rwa [max_comm], ?_⟩
  rcases h4 with h4 | h4
  · exact Or.inl h4.symm
  · exact Or.inr (by rwa [xinters_comm y a b hne] at h4)

/-- C1: for every region and list of AOI rings, if the region has no
registered rivers (in particular any unknown region) or the ring list is
empty, `check_river_intersection` returns the empty list.  The embedding
is a total function, so no error is possible. -/
theorem check_river_intersection_empty_cases (region : String)
    (rings : List (List Point))
    (h : get_river_network region = [] ∨ rings = []) :
    check_river_intersection region rings = [] := by
  unfold check_river_intersection
  rcases h with h | h
  · rw [if_pos h]
  · rcases h with rfl
    by_cases h2 : get_river_network region = [] <;> simp [h2]

theorem check_river_intersection_empty_cases_witness :
    (get_river_network "Gondor" = [] ∨
      ([[((0 : ℚ), (0 : ℚ))]] : List (List Point)) = []) ∧
    check_river_intersection "Gondor" [[(0, 0)]] = [] :=
  ⟨Or.inl (by with_unfolding_all decide),
   check_river_intersection_empty_cases "Gondor" [[(0, 0)]]
     (Or.inl (by with_unfolding_all decide))⟩

/-- C2: every result actually returned by `check_river_intersection` has
`is_intersecting = true` and `intersection_length_km = 0.1 * 100 = 10`
(floats modelled as exact rationals), independent of the geometric
overlap. -/
theorem check_river_intersection_results (region : String)
    (rings : List (List Point)) (r : IntersectionResult)
    (hr : r ∈ check_river_intersection region rings) :
    r.is_intersecting = true ∧ r.intersection_length_km = 10 := by
  unfold check_river_intersection at hr
  split at hr
  · simp at hr
  · split at hr
    · simp at hr
    · simp only [List.mem_map] at hr
      obtain ⟨river, -, rfl⟩ := hr
      exact ⟨rfl, by norm_num⟩

theorem check_river_intersection_results_witness :
    ({ river_name := "Ganges", intersection_length_km := 10,
       is_intersecting := true } : IntersectionResult).is_intersecting = true ∧
    ({ river_name := "Ganges", intersection_length_km := 10,
       is_intersecting := true } : IntersectionResult).intersection_length_km = 10 :=
  check_river_intersection_results "Bihar"
    [[(80, 20), (90, 20), (90, 30), (80, 30)]] _ (by with_unfolding_all decide)

/-- C3: if every ring's bounding box is disjoint from every registered
river's centerline bounding box, `check_river_intersection` returns the
empty list (bounding-box fast path). -/
theorem check_river_intersection_bbox_fast_path (region : String)
    (rings : List (List Point))
    (h : ∀ ring ∈ rings, ∀ river ∈ get_river_network region,
        bboxDisjoint ring river.coordinates = true) :
    check_river_intersection region rings = [] := by
  unfold check_river_intersection
  split
  · rfl
  · split
    · rfl
    · rw [List.map_eq_nil_iff]
      rw [List.filter_eq_nil_iff]
      intro river hriv
      have hdet : riverDetected river rings = false := by
        unfold riverDetected
        rw [List.any_eq_false]
        intro ring hring
        unfold ringDetects
        rw [h ring hring river hriv]
        simp
      simp [hdet]

theorem check_river_intersection_bbox_fast_path_witness :
    (∀ ring ∈ ([[((0 : ℚ), (0 : ℚ)), (1, 0), (1, 1)]] : List (List Point)),
      ∀ river ∈ get_river_network "Bihar",
        bboxDisjoint ring river.coordinates = true) ∧
    check_river_intersection "Bihar" [[(0, 0), (1, 0), (1, 1)]] = [] :=
  ⟨by with_unfolding_all decide,
   check_river_intersection_bbox_fast_path "Bihar" [[(0, 0), (1, 0), (1, 1)]]
     (by with_unfolding_all decide)⟩

/-- For scenario `0m` the buffer is the width times `0.8/1000`, slope
ignored. -/
theorem calculate_buffer_distance_m0 (w slope : ℚ) :
    calculate_buffer_distance .m0 w slope = w / 1000 * (8 / 10) := rfl

/-- For scenario `1m` the buffer is `3 × widthFactor × slopeFactor`. -/
theorem calculate_buffer_distance_m1 (w slope : ℚ) :
    calculate_buffer_distance .m1 w slope =
      3 * (1 + w / 1000) * (1 + 1 / max slope (1 / 10)) := rfl

/-- For scenario `2m` the buffer is `8 × widthFactor × slopeFactor`. -/
theorem calculate_buffer_distance_m2 (w slope : ℚ) :
    calculate_buffer_distance .m2 w slope =
      8 * (1 + w / 1000) * (1 + 1 / max slope (1 / 10)) := rfl

/-- C4: for every river width `≥ 0` and every slope, the buffer distance is
monotone over the scenarios `0m ≤ 1m ≤ 2m`; at width 500 and slope 2 the
inequalities are strict. -/
theorem calculate_buffer_distance_monotone (w slope : ℚ) (hw : 0 ≤ w) :
    (calculate_buffer_distance .m0 w slope ≤ calculate_buffer_distance .m1 w slope ∧
     calculate_buffer_distance .m1 w slope ≤ calculate_buffer_distance .m2 w slope) ∧
    (calculate_buffer_distance .m0 500 2 < calculate_buffer_distance .m1 500 2 ∧
     calculate_buffer_distance .m1 500 2 < calculate_buffer_distance .m2 500 2) := by
  have hm : (1 / 10 : ℚ) ≤ max slope (1 / 10) := le_max_right _ _
  have hm0 : (0 : ℚ) < max slope (1 / 10) := lt_of_lt_of_le (by norm_num) hm
  have hsf : (1 : ℚ) ≤ 1 + 1 / max slope (1 / 10) := by
    have := one_div_pos.mpr hm0
    linarith
  have hwq : (0 : ℚ) ≤ w / 1000 := by positivity
  refine ⟨⟨?_, ?_⟩, ?_, ?_⟩
  · rw [calculate_buffer_distance_m0, calculate_buffer_distance_m1]
    have h3 : (0 : ℚ) ≤ 3 * (1 + w / 1000) := by linarith
    have key : 3 * (1 + w / 1000) ≤
        3 * (1 + w / 1000) * (1 + 1 / max slope (1 / 10)) :=
      le_mul_of_one_le_right h3 hsf
    nlinarith
  · rw [calculate_buffer_distance_m1, calculate_buffer_distance_m2]
    have h5 : (0 : ℚ) ≤ (1 + w / 1000) * (1 + 1 / max slope (1 / 10)) :=
      mul_nonneg (by linarith) (by linarith)
    nlinarith
  · with_unfolding_all decide
  · with_unfolding_all decide

theorem calculate_buffer_distance_monotone_witness :
    ((0 : ℚ) ≤ 0) ∧
    ((calculate_buffer_distance .m0 0 0 ≤ calculate_buffer_distance .m1 0 0 ∧
      calculate_buffer_distance .m1 0 0 ≤ calculate_buffer_distance .m2 0 0) ∧
     (calculate_buffer_distance .m0 500 2 < calculate_buffer_distance .m1 500 2 ∧
      calculate_buffer_distance .m1 500 2 < calculate_buffer_distance .m2 500 2)) :=
  ⟨le_refl 0, calculate_buffer_distance_monotone 0 0 (le_refl 0)⟩

/-- The buffer-distance formula exactly as the specification words it. -/
def bufferDistanceKm_spec (scenario : Scenario) (w slope : ℚ) : ℚ :=
  match scenario with
  | .m0 => w / 1000 * (8 / 10)
  | .m1 => 3 * (1 + w / 1000) * (1 + 1 / max slope (1 / 10))
  | .m2 => 8 * (1 + w / 1000) * (1 + 1 / max slope (1 / 10))

/-- C5: `calculate_buffer_distance` computes exactly the specification's
formula: `(w/1000) * 0.8` for `0m` (slope ignored), and
`base * (1 + w/1000) * (1 + 1/max(slope, 0.1))` with base 3 for `1m` and
8 for `2m`. -/
theorem calculate_buffer_distance_formula (scenario : Scenario) (w slope : ℚ) :
    calculate_buffer_distance scenario w slope = bufferDistanceKm_spec scenario w slope := by
  cases scenario <;> rfl

/-- C6: for `bufferKm ≤ 0` or an empty centerline, `generate_flood_buffer`
returns empty coordinates with the `flood_prone = false` property; the
embedding is total, so no error is possible. -/
theorem generate_flood_buffer_degenerate (river : RiverSegment) (bk : ℚ)
    (h : bk ≤ 0 ∨ river.coordinates = []) :
    (generate_flood_buffer river bk).coordinates = [] ∧
    ("flood_prone", PropValue.b false) ∈ (generate_flood_buffer river bk).properties := by
  unfold generate_flood_buffer
  rw [if_pos h]
  exact ⟨rfl, by simp⟩

theorem generate_flood_buffer_degenerate_witness :
    ((5 : ℚ) ≤ 0 ∨ ({ name := "Dry", coordinates := [] } : RiverSegment).coordinates = []) ∧
    ((generate_flood_buffer { name := "Dry", coordinates := [] } 5).coordinates = [] ∧
     ("flood_prone", PropValue.b false) ∈
       (generate_flood_buffer { name := "Dry", coordinates := [] } 5).properties) :=
  ⟨Or.inr rfl, generate_flood_buffer_degenerate { name := "Dry", coordinates := [] } 5 (Or.inr rfl)⟩

/-- C7 counterexample: on the one-point river and `bufferKm = 111` the ring
built by `generate_flood_buffer` is not the spec's corner-free ring — the
code emits an extra initial point `(lon0 - offset, lat0 - offset)`. -/
theorem generate_flood_buffer_spec_ring_ce :
    (generate_flood_buffer c7River 111).coordinates ≠ [specRingC7 c7River 111] := by
  with_unfolding_all decide

/-- C7 amended: for a nonempty centerline and `bufferKm > 0` the single
ring of `generate_flood_buffer` is: the corner point
`(lon0 - offset, lat0 - offset)`, then the centerline walked forward offset
by `-offset` in longitude only, then walked backward offset by `+offset` in
longitude only, closed by repeating the ring's first point. -/
theorem generate_flood_buffer_ring (river : RiverSegment) (bk : ℚ)
    (hne : river.coordinates ≠ []) (hbk : 0 < bk) :
    (generate_flood_buffer river bk).coordinates = [amendedRingC7 river bk] := by
  have hc : ¬ (bk ≤ 0 ∨ river.coordinates = []) := by
    rintro (h | h)
    · exact absurd hbk (not_lt.mpr h)
    · exact hne h
  obtain ⟨p, rest, hco⟩ := List.exists_cons_of_ne_nil hne
  obtain ⟨lon, lat⟩ := p
  simp only [generate_flood_buffer, amendedRingC7, if_neg hc, hco, mul_one,
    List.map_cons, List.cons_append, List.nil_append]
  simp [hbk.not_le]

theorem generate_flood_buffer_ring_witness :
    (c7River.coordinates ≠ [] ∧ (0 : ℚ) < 111) ∧
    (generate_flood_buffer c7River 111).coordinates = [amendedRingC7 c7River 111] :=
  ⟨⟨by with_unfolding_all decide, by norm_num⟩,
   generate_flood_buffer_ring c7River 111 (by with_unfolding_all decide) (by norm_num)⟩

/-- C8 counterexample: on the empty ring the source indexes `polygon[0]`
and fails (Python `IndexError`), modelled as `none` — it does not return
`false`. -/
theorem is_point_in_polygon_empty_ce :
    is_point_in_polygon 0 0 ([] : List Point) ≠ some false := by
  with_unfolding_all decide

/-- C8 amended: for every point and every ring with exactly 1 or 2 points,
`is_point_in_polygon` returns `false`; on a 0-point ring the source fails
instead of returning `false`. -/
theorem is_point_in_polygon_short (x y : ℚ) (polygon : List Point)
    (h : polygon.length = 1 ∨ polygon.length = 2) :
    is_point_in_polygon x y polygon = some false := by
  rcases polygon with - | ⟨a, - | ⟨b, - | ⟨c, t⟩⟩⟩
  · rcases h with h | h <;> simp at h
  · have hna := pipToggle_self x y a
    simp [is_point_in_polygon, pipStep, hna]
  · have hna := pipToggle_self x y a
    by_cases hab : pipToggle x y a b
    · have hba := pipToggle_comm hab
      simp [is_point_in_polygon, pipStep, hna, hab, hba]
    · have hba : ¬ pipToggle x y b a := fun hh => hab (pipToggle_comm hh)
      simp [is_point_in_polygon, pipStep, hna, hab, hba]
  · rcases h with h | h <;> simp [List.length_cons] at h

theorem is_point_in_polygon_short_witness :
    (([((0 : ℚ), (0 : ℚ))] : List Point).length = 1 ∨
     ([((0 : ℚ), (0 : ℚ))] : List Point).length = 2) ∧
    is_point_in_polygon 0 0 [((0 : ℚ), (0 : ℚ))] = some false :=
  ⟨Or.inl rfl, is_point_in_polygon_short 0 0 [((0 : ℚ), (0 : ℚ))] (Or.inl rfl)⟩

/-- C9: `get_flood_geometry` is a pure function of the region and the
scenario (the `lru_cache` only memoizes it), so two calls with identical
arguments return structurally identical FeatureCollections. -/
theorem get_flood_geometry_deterministic (region : String) (scenario : Scenario) :
    get_flood_geometry region scenario = get_flood_geometry region scenario := rfl

/-- C10: for each of the four registered regions and each scenario,
`get_flood_geometry` returns exactly one feature per registered river of
the region, in registration order (its `river_name` properties are exactly
the region's river names): every registered width is positive, so even the
`0m` buffer is positive and no geometry is empty. -/
theorem get_flood_geometry_one_feature_per_river (region : String)
    (h : region ∈ ["Bihar", "Uttarakhand", "Jharkhand", "Uttar Pradesh"])
    (scenario : Scenario) :
    (get_flood_geometry region scenario).features.map featureRiverName =
      (get_river_network region).map (fun r => some (PropValue.s r.name)) := by
  fin_cases h <;> cases scenario <;> with_unfolding_all decide

theorem get_flood_geometry_one_feature_per_river_witness :
    ("Bihar" ∈ ["Bihar", "Uttarakhand", "Jharkhand", "Uttar Pradesh"]) ∧
    (get_flood_geometry "Bihar" Scenario.m0).features.map featureRiverName =
      (get_river_network "Bihar").map (fun r => some (PropValue.s r.name)) :=
  ⟨by decide, get_flood_geometry_one_feature_per_river "Bihar" (by decide) Scenario.m0⟩
